import Mathlib

/-!
Verification development for the Digi-Sanchaar SOS backend
(Express handler in the repository's backend entry file, endpoint
POST /api/trigger-sos plus its helpers).

The handler is embedded shallowly:
* JavaScript numbers for coordinates and distances become rationals;
  the external `distanceBetween` function from geofire-common is an
  abstract parameter (it returns kilometres).
* Remote calls become data: each per-range Firestore query result is an
  `Except String (List UserDoc)` (error = rejected promise), and each
  gateway send outcome is a Bool-valued function supplied as input.
* JavaScript truthiness tests on possibly-missing values are modelled
  explicitly: a missing value or the number 0 is falsy, a missing or
  empty string is falsy.  (NaN is outside the model.)
-/

namespace DigiSanchaar

/-- JS truthiness of an optional number (`undefined` and `0` are falsy). -/
def numTruthy : Option ℚ → Bool
  | none => false
  | some x => x != 0

/-- JS truthiness of an optional string (`undefined` and the empty string
are falsy), as used on the environment variables. -/
def strTruthy : Option String → Bool
  | none => false
  | some s => !s.isEmpty

/-- An opaque web-push subscription object stored on a user document. -/
structure PushSub where
  endpoint : String
deriving DecidableEq, Repr

/-- A user document returned by a Firestore range query: the document id
together with the fields the handler reads (`lastLocation.lat`,
`lastLocation.lng`, `pushSubscription`).  Missing fields are `none`. -/
structure UserDoc where
  id : String
  lat : Option ℚ
  lng : Option ℚ
  pushSubscription : Option PushSub
deriving DecidableEq, Repr

/-- The per-document test performed inside the nested `for` loops of the
nearby-users block: skip the triggering user's own document
(`doc.id === user.uid`), read `lastLocation.lat` / `lastLocation.lng`,
keep the document when both are truthy and the distance (km, from the
abstract `dist`) scaled to metres is at most the radius. -/
def docPasses (dist : ℚ → ℚ → ℚ → ℚ → ℚ) (uid : String)
    (clat clng radiusInM : ℚ) (d : UserDoc) : Bool :=
  if d.id == uid then false
  else if numTruthy d.lat && numTruthy d.lng then
    let distanceInKm := dist (d.lat.getD 0) (d.lng.getD 0) clat clng
    let distanceInM := distanceInKm * 1000
    decide (distanceInM ≤ radiusInM)
  else false

/-- Definition of `matchingDocs`: the nested loops over the resolved snapshots, pushing
every document that passes the exclusion / truthiness / distance test. -/
def matchingDocs (dist : ℚ → ℚ → ℚ → ℚ → ℚ) (uid : String)
    (clat clng radiusInM : ℚ) (snapshots : List (List UserDoc)) :
    List UserDoc :=
  snapshots.flatMap (fun snap => snap.filter (docPasses dist uid clat clng radiusInM))

/-- Semantics of `Promise.all` over the per-range query promises: if any promise is
rejected the combined promise is rejected (with the first error). -/
def promiseAll : List (Except String (List UserDoc)) →
    Except String (List (List UserDoc))
  | [] => Except.ok []
  | Except.error e :: _ => Except.error e
  | Except.ok s :: rs =>
    match promiseAll rs with
    | Except.error e => Except.error e
    | Except.ok rest => Except.ok (s :: rest)

/-- The push fan-out over `matchingDocs` (`pushPromises`): a document with
a truthy `pushSubscription` gets exactly one `sendNotification` attempt
whose success increments `nearbyUsersNotified` and whose failure is
caught and only logged; a document without a subscription is skipped.
Returns the final counter together with the list of attempts
(document id, send outcome) in document order. -/
def pushStage (pushOk : UserDoc → Bool) :
    List UserDoc → Nat × List (String × Bool)
  | [] => (0, [])
  | d :: rest =>
    let r := pushStage pushOk rest
    match d.pushSubscription with
    | some _ => ((if pushOk d then r.1 + 1 else r.1), (d.id, pushOk d) :: r.2)
    | none => r

/-- Observable result of the nearby-users block: the merged filtered
documents, the final `nearbyUsersNotified` counter, and the push attempts
that were made. -/
structure NearbyResult where
  matching : List UserDoc
  notified : Nat
  pushAttempts : List (String × Bool)
deriving DecidableEq, Repr

/-- The whole nearby-users `try` block: await `Promise.all` over the range
queries — if that throws, the `catch` swallows the error and the block
ends with `nearbyUsersNotified` still 0 and no documents collected —
otherwise filter the snapshots and run the push fan-out. -/
def runNearby (dist : ℚ → ℚ → ℚ → ℚ → ℚ) (uid : String)
    (clat clng radiusInM : ℚ)
    (queryResults : List (Except String (List UserDoc)))
    (pushOk : UserDoc → Bool) : NearbyResult :=
  match promiseAll queryResults with
  | Except.error _ => ⟨[], 0, []⟩
  | Except.ok snapshots =>
    let matching := matchingDocs dist uid clat clng radiusInM snapshots
    let p := pushStage pushOk matching
    ⟨matching, p.1, p.2⟩

/-- The five environment variables read for the email/call channels. -/
structure Config where
  twilioAccountSid : Option String
  twilioAuthToken : Option String
  twilioPhoneNumber : Option String
  resendApiKey : Option String
  resendFromEmail : Option String

/-- Definition of `areApiKeysMissing`: true when any of the five configuration values is
falsy (unset or empty). -/
def areApiKeysMissing (c : Config) : Bool :=
  !strTruthy c.twilioAccountSid || !strTruthy c.twilioAuthToken ||
  !strTruthy c.twilioPhoneNumber || !strTruthy c.resendApiKey ||
  !strTruthy c.resendFromEmail

/-- An emergency contact from the validated request body. -/
structure Contact where
  name : List Char
  phone : List Char
  email : List Char
deriving DecidableEq, Repr

/-- JS `String.prototype.trim` whitespace (ASCII part plus NBSP). -/
def isJsSpace (c : Char) : Bool :=
  c == ' ' || c == '\t' || c == '\n' || c == '\r' ||
  c == '\x0b' || c == '\x0c' || c == ' '

/-- Model of `phone.trim()`: strip leading and trailing whitespace. -/
def trimJs (s : List Char) : List Char :=
  ((s.dropWhile isJsSpace).reverse.dropWhile isJsSpace).reverse

/-- Definition of `formatPhoneNumber`: return the trimmed input when it starts with
a plus sign, otherwise prepend the country code to the input with every
non-digit removed (the regex replace of non-digits by nothing). -/
def formatPhoneNumber (phone : List Char) : List Char :=
  if (trimJs phone).head? == some '+' then trimJs phone
  else '+' :: '9' :: '1' :: phone.filter Char.isDigit

/-- A notification channel of the contact loop. -/
inductive Channel
  | email
  | call
deriving DecidableEq, Repr

/-- One gateway attempt of the contact loop: channel, destination handed
to the gateway, and outcome (`true` = the awaited promise resolved;
a rejection is caught inside the loop and only logged). -/
structure Attempt where
  channel : Channel
  target : List Char
  ok : Bool
deriving DecidableEq, Repr

/-- The body of the `for (const contact of emergencyContacts)` loop,
unrolled over the list: for each contact, one email attempt (to the
contact's email address) wrapped in try/catch, then one call attempt
(to the formatted phone number) wrapped in try/catch. -/
def contactAttempts (contacts : List Contact)
    (emailOk callOk : Contact → Bool) : List Attempt :=
  contacts.flatMap (fun c =>
    [⟨Channel.email, c.email, emailOk c⟩,
     ⟨Channel.call, formatPhoneNumber c.phone, callOk c⟩])

/-- The emergency-contact section of the handler: when
`areApiKeysMissing` the whole section is skipped (no clients are built,
no attempt is made), otherwise the contact loop runs. -/
def contactBlock (cfg : Config) (contacts : List Contact)
    (emailOk callOk : Contact → Bool) : List Attempt :=
  if areApiKeysMissing cfg then [] else contactAttempts contacts emailOk callOk

/-- Number of attempts of the contact loop whose email send resolved. -/
def emailsSent (attempts : List Attempt) : Nat :=
  attempts.countP (fun a => a.channel == Channel.email && a.ok)

/-- Number of attempts of the contact loop whose call creation resolved. -/
def callsMade (attempts : List Attempt) : Nat :=
  attempts.countP (fun a => a.channel == Channel.call && a.ok)

/-- The fixed first sentence of the response message, holding the
`nearbyUsersNotified` counter. -/
def responseBase (n : Nat) : String :=
  "SOS processed. Notified " ++ toString n ++ " nearby users via push."

/-- Definition of `responseMessage`: the base sentence plus either the
configuration-skip sentence or the initiated sentence. -/
def mkResponseMessage (n : Nat) (missing : Bool) : String :=
  if missing then
    responseBase n ++
      " Emergency contact notifications were skipped due to missing server configuration."
  else
    responseBase n ++ " Emergency contact notification process initiated."

/-- The validated request body of POST /api/trigger-sos. -/
structure SosRequest where
  emergencyContacts : List Contact
  lat : ℚ
  lng : ℚ
  summary : String
  keywords : List String
  userName : Option String
  userUid : String

/-- The handler's external world: module-level initialization flags,
the store's per-range answers, the gateway outcomes, the configuration. -/
structure Env where
  firebaseReady : Bool
  vapidPublic : Option String
  vapidPrivate : Option String
  dist : ℚ → ℚ → ℚ → ℚ → ℚ
  queryResults : List (Except String (List UserDoc))
  pushOk : UserDoc → Bool
  cfg : Config
  emailOk : Contact → Bool
  callOk : Contact → Bool

/-- The observable outcome of one handler run: HTTP status, response
message, nearby-users result, contact-loop attempts. -/
structure SosResult where
  status : Nat
  message : String
  nearby : NearbyResult
  attempts : List Attempt

/-- The 5 km radius in metres used by the handler. -/
def radiusInM : ℚ := 5 * 1000

/-- POST /api/trigger-sos after successful schema validation: run the
nearby-users block when Firebase and both VAPID keys are configured,
then the emergency-contact block, then answer 200 with the assembled
message.  No failure recorded in `Env` reaches the response status. -/
def triggerSos (req : SosRequest) (env : Env) : SosResult :=
  let nearby :=
    if env.firebaseReady && strTruthy env.vapidPublic && strTruthy env.vapidPrivate then
      runNearby env.dist req.userUid req.lat req.lng radiusInM
        env.queryResults env.pushOk
    else ⟨[], 0, []⟩
  let missing := areApiKeysMissing env.cfg
  let attempts := contactBlock env.cfg req.emergencyContacts env.emailOk env.callOk
  { status := 200
    message := mkResponseMessage nearby.notified missing
    nearby := nearby
    attempts := attempts }

/-- Completion-order aggregation of the push counter: each settled
attempt increments the shared `nearbyUsersNotified` accumulator exactly
when its send resolved. -/
def aggregateNotified (results : List (String × Bool)) : Nat :=
  results.foldl (fun n r => if r.2 then n + 1 else n) 0

/-! ### Helper lemmas -/

lemma docPasses_id_ne (dist : ℚ → ℚ → ℚ → ℚ → ℚ) (uid : String)
    (clat clng r : ℚ) (d : UserDoc)
    (h : docPasses dist uid clat clng r d = true) : d.id ≠ uid := by
  intro he
  simp [docPasses, he] at h

lemma pushStage_fst (pushOk : UserDoc → Bool) (l : List UserDoc) :
    (pushStage pushOk l).1 =
      l.countP (fun d => d.pushSubscription.isSome && pushOk d) := by
  induction l with
  | nil => simp [pushStage]
  | cons d rest ih =>
    cases hs : d.pushSubscription with
    | none => simp [pushStage, hs, List.countP_cons, ih]
    | some s =>
      cases hp : pushOk d <;>
        simp [pushStage, hs, List.countP_cons, ih, hp]

lemma pushStage_snd_map (pushOk : UserDoc → Bool) (l : List UserDoc) :
    (pushStage pushOk l).2.map Prod.fst =
      (l.filter (fun d => d.pushSubscription.isSome)).map UserDoc.id := by
  induction l with
  | nil => simp [pushStage]
  | cons d rest ih =>
    cases hs : d.pushSubscription with
    | none => simp [pushStage, hs, ih]
    | some s => simp [pushStage, hs, ih]

lemma pushStage_snd_all (pushOk : UserDoc → Bool) (p : String → Bool)
    (l : List UserDoc) (h : l.all (fun d => p d.id) = true) :
    (pushStage pushOk l).2.all (fun a => p a.1) = true := by
  induction l with
  | nil => simp [pushStage]
  | cons d rest ih =>
    simp only [List.all_cons, Bool.and_eq_true] at h
    cases hs : d.pushSubscription with
    | none => simpa [pushStage, hs] using ih h.2
    | some s => simpa [pushStage, hs, h.1] using ih h.2

lemma promiseAll_ok (snaps : List (List UserDoc)) :
    promiseAll (snaps.map Except.ok) = Except.ok snaps := by
  induction snaps with
  | nil => rfl
  | cons s rest ih => simp [promiseAll, ih]

lemma promiseAll_has_error (results : List (Except String (List UserDoc)))
    (e : String) (h : Except.error e ∈ results) :
    ∃ e2, promiseAll results = Except.error e2 := by
  induction results with
  | nil => cases h
  | cons r rest ih =>
    rcases List.mem_cons.mp h with h1 | h2
    · exact ⟨e, by simp [promiseAll, ← h1]⟩
    · rcases ih h2 with ⟨e2, he2⟩
      cases r with
      | error e3 => exact ⟨e3, by simp [promiseAll]⟩
      | ok s => exact ⟨e2, by simp [promiseAll, he2]⟩

lemma aggregateNotified_eq_countP (results : List (String × Bool)) :
    aggregateNotified results = results.countP (fun r => r.2) := by
  have key : ∀ (l : List (String × Bool)) (n : Nat),
      l.foldl (fun m r => if r.2 then m + 1 else m) n = n + l.countP (fun r => r.2) := by
    intro l
    induction l with
    | nil => simp
    | cons r rest ih =>
      intro n
      cases hr : r.2
      · simp [List.countP_cons, ih, hr]
      · simp [List.countP_cons, ih, hr]
        omega
  simpa [aggregateNotified] using key results 0

end DigiSanchaar

namespace DigiSanchaar

/-! ### Claims -/

/-- C4: for every alert request and every content of the location store,
the triggering user's own record is never a member of the resolved
nearby set and never receives a push attempt. -/
theorem c4_triggering_user_never_notified (dist : ℚ → ℚ → ℚ → ℚ → ℚ)
    (uid : String) (clat clng r : ℚ)
    (results : List (Except String (List UserDoc)))
    (pushOk : UserDoc → Bool) :
    ((runNearby dist uid clat clng r results pushOk).matching.all
        (fun d => d.id != uid)) = true ∧
    ((runNearby dist uid clat clng r results pushOk).pushAttempts.all
        (fun a => a.1 != uid)) = true := by
  cases hp : promiseAll results with
  | error e => simp [runNearby, hp]
  | ok snaps =>
    have hall : (matchingDocs dist uid clat clng r snaps).all
        (fun d => d.id != uid) = true := by
      rw [List.all_eq_true]
      intro d hd
      rcases List.mem_flatMap.mp hd with ⟨snap, _, hmem⟩
      have hpass := List.of_mem_filter hmem
      simpa using docPasses_id_ne dist uid clat clng r d hpass
    refine ⟨by simpa [runNearby, hp] using hall, ?_⟩
    simpa [runNearby, hp] using
      pushStage_snd_all pushOk (fun s => s != uid) _ hall

/-- C8: exactly one push send is attempted per nearby recipient holding a
push subscription (in order, none for the others), and the reported
counter equals the number of subscription holders whose send succeeded. -/
theorem c8_one_push_per_subscriber (pushOk : UserDoc → Bool)
    (l : List UserDoc) :
    (pushStage pushOk l).2.map Prod.fst =
      (l.filter (fun d => d.pushSubscription.isSome)).map UserDoc.id ∧
    (pushStage pushOk l).1 =
      l.countP (fun d => d.pushSubscription.isSome && pushOk d) := by
  exact ⟨pushStage_snd_map pushOk l, pushStage_fst pushOk l⟩

/-- C9: the push counter aggregation is order-independent: permuting the
multiset of settled attempt results leaves the counter, and hence the
response message built from it, unchanged. -/
theorem c9_aggregation_order_independent (l1 l2 : List (String × Bool))
    (missing : Bool) (h : l1.Perm l2) :
    aggregateNotified l1 = aggregateNotified l2 ∧
    mkResponseMessage (aggregateNotified l1) missing =
      mkResponseMessage (aggregateNotified l2) missing := by
  have hc : aggregateNotified l1 = aggregateNotified l2 := by
    rw [aggregateNotified_eq_countP, aggregateNotified_eq_countP]
    exact h.countP_eq _
  exact ⟨hc, by rw [hc]⟩

/-- Witness for C9 at a concrete permutation. -/
theorem c9_aggregation_order_independent_witness :
    aggregateNotified [("a", true), ("b", false), ("c", true)] =
      aggregateNotified [("c", true), ("a", true), ("b", false)] :=
  (c9_aggregation_order_independent
    [("a", true), ("b", false), ("c", true)]
    [("c", true), ("a", true), ("b", false)] true (by decide)).1

/-- C10: `formatPhoneNumber` returns the trimmed input when that starts
with a plus sign, otherwise the country code followed by exactly the
digits of the input; either way the result starts with a plus sign. -/
theorem c10_formatPhoneNumber_spec (s : List Char) :
    (if (trimJs s).head? == some '+' then formatPhoneNumber s = trimJs s
     else formatPhoneNumber s = '+' :: '9' :: '1' :: s.filter Char.isDigit) ∧
    (formatPhoneNumber s).head? = some '+' := by
  by_cases h : (trimJs s).head? == some '+'
  · refine ⟨by simp [h, formatPhoneNumber], ?_⟩
    have he : (trimJs s).head? = some '+' := by simpa using h
    simp [formatPhoneNumber, h, he]
  · have hb : ((trimJs s).head? == some '+') = false := by
      simpa using h
    refine ⟨by simp [hb, formatPhoneNumber], ?_⟩
    simp [formatPhoneNumber, hb]

/-- C1 counterexample: with one rejected and one successful range query,
the record returned by the successful range is not merged and receives
no push — the whole search yields nothing — although the very same
record is kept and notified when the failing range is replaced by an
empty success. -/
theorem c1_counterexample_partial_failure_drops_all :
    (runNearby (fun _ _ _ _ => 0) "t" 19 72 5000
        [Except.error ("unavailable"),
         Except.ok [⟨"a", some 19, some 72, some ⟨"s"⟩⟩]]
        (fun _ => true)) = ⟨[], 0, []⟩ ∧
    (runNearby (fun _ _ _ _ => 0) "t" 19 72 5000
        [Except.ok [],
         Except.ok [⟨"a", some 19, some 72, some ⟨"s"⟩⟩]]
        (fun _ => true)) =
      ⟨[⟨"a", some 19, some 72, some ⟨"s"⟩⟩], 1, [("a", true)]⟩ := by
  refine ⟨rfl, ?_⟩
  norm_num [runNearby, promiseAll, matchingDocs, docPasses, numTruthy,
    pushStage, List.filter]
  rfl

/-- C1 (amended): if any per-range store query is rejected, the entire
nearby-user search is abandoned — every range contributes zero
candidates and no push is attempted — while the handler still answers
200 and the emergency-contact block is unaffected. -/
theorem c1_amended_range_failure_aborts_whole_search (req : SosRequest)
    (env : Env) (e : String) (h : Except.error e ∈ env.queryResults) :
    (triggerSos req env).nearby = ⟨[], 0, []⟩ ∧
    (triggerSos req env).status = 200 ∧
    (triggerSos req env).attempts =
      contactBlock env.cfg req.emergencyContacts env.emailOk env.callOk := by
  refine ⟨?_, rfl, rfl⟩
  cases hf : env.firebaseReady && strTruthy env.vapidPublic &&
      strTruthy env.vapidPrivate with
  | false => simp [triggerSos, hf]
  | true =>
    rcases promiseAll_has_error env.queryResults e h with ⟨e2, he2⟩
    simp [triggerSos, hf, runNearby, he2]

/-- Witness for C1 (amended) at a concrete request and environment. -/
theorem c1_amended_witness :
    (triggerSos ⟨[], 19, 72, "s", [], none, "t"⟩
        ⟨true, some ("pub"), some ("priv"), fun _ _ _ _ => 0,
          [Except.error ("unavailable"),
           Except.ok [⟨"a", some 19, some 72, some ⟨"s"⟩⟩]],
          fun _ => true, ⟨none, none, none, none, none⟩,
          fun _ => true, fun _ => true⟩).nearby = ⟨[], 0, []⟩ :=
  (c1_amended_range_failure_aborts_whole_search _ _ ("unavailable")
    (by simp)).1

/-- C2 counterexample: with the call gateway unconfigured but the email
gateway configured and succeeding, the code skips the whole contact
block — zero email attempts are made for the two contacts, not two. -/
theorem c2_counterexample_missing_call_config_skips_email :
    areApiKeysMissing ⟨none, none, none, some ("rk"), some ("from@x")⟩ = true ∧
    contactBlock ⟨none, none, none, some ("rk"), some ("from@x")⟩
      [⟨['A'], ['1'], ['a']⟩, ⟨['B'], ['2'], ['b']⟩]
      (fun _ => true) (fun _ => true) = [] ∧
    emailsSent (contactBlock ⟨none, none, none, some ("rk"), some ("from@x")⟩
      [⟨['A'], ['1'], ['a']⟩, ⟨['B'], ['2'], ['b']⟩]
      (fun _ => true) (fun _ => true)) = 0 := by
  exact ⟨rfl, rfl, rfl⟩

/-- C2 (amended): whenever any of the five email/call configuration
values is missing, BOTH channels are skipped wholesale: no email and no
call attempt is made for any contact, and the response message reports
the skip as a configuration-level condition. -/
theorem c2_amended_missing_config_skips_both_channels (req : SosRequest)
    (env : Env) (h : areApiKeysMissing env.cfg = true) :
    (triggerSos req env).attempts = [] ∧
    emailsSent (triggerSos req env).attempts = 0 ∧
    callsMade (triggerSos req env).attempts = 0 ∧
    (triggerSos req env).message =
      responseBase (triggerSos req env).nearby.notified ++
        " Emergency contact notifications were skipped due to missing server configuration." := by
  have ha : (triggerSos req env).attempts = [] := by
    simp [triggerSos, contactBlock, h]
  refine ⟨ha, by simp [ha, emailsSent], by simp [ha, callsMade], ?_⟩
  simp [triggerSos, mkResponseMessage, h]

/-- Witness for C2 (amended) at a concrete request and environment. -/
theorem c2_amended_witness :
    (triggerSos ⟨[⟨['A'], ['1'], ['a']⟩, ⟨['B'], ['2'], ['b']⟩],
        19, 72, "s", [], none, "t"⟩
      ⟨false, none, none, fun _ _ _ _ => 0, [], fun _ => true,
        ⟨none, none, none, some ("rk"), some ("from@x")⟩,
        fun _ => true, fun _ => true⟩).attempts = [] :=
  (c2_amended_missing_config_skips_both_channels _ _ (by decide)).1

/-- C3: the boundary behaviour holds (a record 1 m inside the radius is
kept, one 1 m outside is dropped), but a record whose stored latitude is
the number 0 — known coordinates, distance 0 from the centre — is
dropped by the truthiness test on its coordinates, contradicting the
claim's "included iff known coordinates and within radius".  The
distance function is instantiated to read the pre-computed distance (in
km) out of the record's lat field. -/
theorem c3_zero_coordinate_dropped :
    numTruthy (some (0 : ℚ)) = false ∧
    matchingDocs (fun la _ _ _ => la) "t" 0 0 5000
      [[⟨"inA", some (4999 / 1000), some 10, none⟩,
        ⟨"eqA", some 0, some 10, none⟩,
        ⟨"outA", some (5001 / 1000), some 10, none⟩]] =
      [⟨"inA", some (4999 / 1000), some 10, none⟩] := by
  refine ⟨rfl, ?_⟩
  norm_num [matchingDocs, docPasses, numTruthy, List.filter]
  rfl

/-- C5: every schema-valid request is answered with HTTP 200, whatever
the store results, gateway outcomes and configuration; the contact
attempts do not depend on the store results and the nearby result does
not depend on the contact configuration or gateways ("and vice versa"). -/
theorem c5_always_200_and_failure_independent (req : SosRequest) (env : Env)
    (qA qB : List (Except String (List UserDoc)))
    (cfgA cfgB : Config) (eA eB kA kB : Contact → Bool) :
    (triggerSos req env).status = 200 ∧
    (triggerSos req { env with queryResults := qA }).attempts =
      (triggerSos req { env with queryResults := qB }).attempts ∧
    (triggerSos req { env with cfg := cfgA, emailOk := eA, callOk := kA }).nearby =
      (triggerSos req { env with cfg := cfgB, emailOk := eB, callOk := kB }).nearby := by
  exact ⟨rfl, rfl, rfl⟩

/-- C6 counterexample: when the same record is returned by two range
queries, it appears twice in the merged candidate list and receives two
push attempts — nothing de-duplicates by user id. -/
theorem c6_counterexample_duplicates_kept :
    (runNearby (fun _ _ _ _ => 0) "t" 19 72 5000
        [Except.ok [⟨"a", some 19, some 72, some ⟨"s"⟩⟩],
         Except.ok [⟨"a", some 19, some 72, some ⟨"s"⟩⟩]]
        (fun _ => true)) =
      ⟨[⟨"a", some 19, some 72, some ⟨"s"⟩⟩,
        ⟨"a", some 19, some 72, some ⟨"s"⟩⟩],
        2, [("a", true), ("a", true)]⟩ ∧
    ((runNearby (fun _ _ _ _ => 0) "t" 19 72 5000
        [Except.ok [⟨"a", some 19, some 72, some ⟨"s"⟩⟩],
         Except.ok [⟨"a", some 19, some 72, some ⟨"s"⟩⟩]]
        (fun _ => true)).matching.count
          ⟨"a", some 19, some 72, some ⟨"s"⟩⟩) = 2 := by
  have h : (runNearby (fun _ _ _ _ => 0) "t" 19 72 5000
      [Except.ok [⟨"a", some 19, some 72, some ⟨"s"⟩⟩],
       Except.ok [⟨"a", some 19, some 72, some ⟨"s"⟩⟩]]
      (fun _ => true)) =
      ⟨[⟨"a", some 19, some 72, some ⟨"s"⟩⟩,
        ⟨"a", some 19, some 72, some ⟨"s"⟩⟩],
        2, [("a", true), ("a", true)]⟩ := by
    norm_num [runNearby, promiseAll, matchingDocs, docPasses, numTruthy,
      pushStage, List.filter]
    rfl
  exact ⟨h, by rw [h]; rfl⟩

/-- C6 (amended): the merged candidate list is the plain concatenation
of the per-range filtered results with no de-duplication — a record
returned by several ranges appears once per occurrence — and one push
attempt is made per occurrence that holds a subscription. -/
theorem c6_amended_merge_keeps_duplicates (dist : ℚ → ℚ → ℚ → ℚ → ℚ)
    (uid : String) (clat clng r : ℚ) (snaps : List (List UserDoc))
    (pushOk : UserDoc → Bool) (d : UserDoc) :
    ((runNearby dist uid clat clng r (snaps.map Except.ok) pushOk).matching.count d) =
      (snaps.map (fun snap =>
        (snap.filter (docPasses dist uid clat clng r)).count d)).sum ∧
    (runNearby dist uid clat clng r (snaps.map Except.ok) pushOk).pushAttempts.length =
      (runNearby dist uid clat clng r (snaps.map Except.ok) pushOk).matching.countP
        (fun x => x.pushSubscription.isSome) := by
  have hok := promiseAll_ok snaps
  constructor
  · simp [runNearby, hok, matchingDocs, List.count_flatMap, Function.comp_def]
  · have hlen := congrArg List.length
      (pushStage_snd_map pushOk (matchingDocs dist uid clat clng r snaps))
    simp only [List.length_map] at hlen
    rw [List.countP_eq_length_filter]
    simpa [runNearby, hok] using hlen

/-- C7: with all five configuration values present, the contact loop
makes exactly one email attempt and one call attempt per contact, in
order, whatever the gateway outcomes are — no failure suppresses a later
attempt and none escapes the loop. -/
theorem c7_attempts_independent_of_outcomes (cfg : Config)
    (contacts : List Contact) (emailOk callOk : Contact → Bool)
    (h : areApiKeysMissing cfg = false) :
    (contactBlock cfg contacts emailOk callOk).map
        (fun a => (a.channel, a.target)) =
      contacts.flatMap (fun c =>
        [(Channel.email, c.email),
         (Channel.call, formatPhoneNumber c.phone)]) := by
  simp [contactBlock, h, contactAttempts, List.map_flatMap]

/-- Witness for C7: two contacts, the first engineered to fail on email
and every call failing; both contacts still get both attempts. -/
theorem c7_witness :
    (contactBlock ⟨some ("sid"), some ("tok"), some ("ph"), some ("rk"), some ("from")⟩
        [⟨['A'], ['1'], ['a']⟩, ⟨['B'], ['2'], ['b']⟩]
        (fun c => c.name != ['A']) (fun _ => false)).map
          (fun a => (a.channel, a.target)) =
      [(Channel.email, ['a']), (Channel.call, ['+', '9', '1', '1']),
       (Channel.email, ['b']), (Channel.call, ['+', '9', '1', '2'])] := by
  rw [c7_attempts_independent_of_outcomes _ _ _ _ (by decide)]
  decide

/-- Witness for C10 at a concrete phone number: the gateway destination
built from a bare local number starts with a plus sign. -/
theorem c10_formatPhoneNumber_spec_witness :
    (formatPhoneNumber [' ', '0', '-', '1', '2']).head? = some '+' :=
  (c10_formatPhoneNumber_spec [' ', '0', '-', '1', '2']).2

end DigiSanchaar
